import Mathlib

/-!
# Verification of the amortization recalculation core of `flex-analise-backend`

This file embeds the numerical core of the repository — the module
`src/calculators/financial_calculator.py` (class `FinancialCalculator`) and the
orchestration module `src/calculators/recalculo_bacen.py` (class `RecalculoBacen`)
— as Lean definitions, and proves or refutes the frozen specification claims
about them.

Modelling conventions:

* Python `float` money/rate arithmetic is embedded as exact rational arithmetic
  (`ℚ`); Python's `round(x, 2)` is embedded as rounding to the nearest
  centesimal (`round2`).
* The two compounding-rate conversions use a fractional real power
  (`math.pow(1 + x, 1/12)`), which is transcendental; they are embedded over
  `ℝ` (`converter_taxa_anual_para_mensal`, `converter_taxa_mensal_para_anual`).
  Inside `recalcular_contrato` the annual→monthly conversion of the fetched
  reference rate is abstracted as an explicit function parameter `conv`
  (theorems about the orchestrator hold for every `conv`), while the
  monthly→annual conversion (an integer power) is embedded exactly over `ℚ`
  as `converter_taxa_mensal_para_anual_q`.
* The external BACEN time-series client (`self.bacen`, a network collaborator,
  `src/calculators/bacen_integration.py`) is abstracted as a parameter
  `taxa_bacen_lookup : Option ℚ` holding the value the lookup returned.
* Installment due dates (`data_vencimento`, produced by `strftime` /
  `relativedelta`) do not affect any numeric field and are elided from the
  embedded `Parcela` record.
* Python exceptions are embedded with `Option`: the division by zero that
  `detectar_metodologia_amortizacao` can raise is its `none` result.
-/

namespace FlexAnalise

/-- Python's `round(x, 2)` modelled over `ℚ`: round to the nearest multiple of
`1/100` (ties rounded up, the standard exact-arithmetic idealization of the
float behaviour). -/
def round2 (q : ℚ) : ℚ := (round (q * 100) : ℤ) / 100

/-- The balance snap of both schedule loops
(`if saldo_devedor < 0.01: saldo_devedor = 0.0`). -/
def snap (s : ℚ) : ℚ := if s < 1 / 100 then 0 else s

/-- One row of a generated schedule: the dictionary `parcela_info` built by
`calcular_tabela_price` / `calcular_sac` (the due-date string is elided, see
the module docstring). -/
structure Parcela where
  numero : ℕ
  valor_parcela : ℚ
  juros : ℚ
  amortizacao : ℚ
  saldo_devedor : ℚ

/-- The loop `for num_parcela in range(1, numero_parcelas + 1)` of
`FinancialCalculator.calcular_tabela_price`, lines 114–145.  `fuel` is the
number of iterations still to run (`n + 1 - k`), `k` the current parcel
number, `saldo` the running balance and `tj` the running `total_juros`
accumulator.  Returns the generated rows together with the final `total_juros`. -/
def priceAux (i PMT : ℚ) (n : ℕ) : ℕ → ℕ → ℚ → ℚ → List Parcela × ℚ
  | 0, _, _, tj => ([], tj)
  | fuel + 1, k, saldo, tj =>
      let juros := saldo * i
      let amortizacao := if k = n then saldo else PMT - juros
      let pmtAjustado := if k = n then amortizacao + juros else PMT
      let saldo2 := snap (saldo - amortizacao)
      let rest := priceAux i PMT n fuel (k + 1) saldo2 (tj + juros)
      (⟨k, round2 pmtAjustado, round2 juros, round2 amortizacao, round2 saldo2⟩ :: rest.1,
        rest.2)

/-- The result dictionary of `FinancialCalculator.calcular_tabela_price`. -/
structure ResultadoPrice where
  valor_parcela : ℚ
  total_pago : ℚ
  total_juros : ℚ
  parcelas : List Parcela

/-- The PMT computation of `calcular_tabela_price`, lines 97–105:
`PMT = PV / n` for a zero rate, else `PV * [i(1+i)^n] / [(1+i)^n - 1]`. -/
def pricePMT (PV i : ℚ) (n : ℕ) : ℚ :=
  if i = 0 then PV / n else PV * ((i * (1 + i) ^ n) / ((1 + i) ^ n - 1))

/-- Embedding of `FinancialCalculator.calcular_tabela_price` (lines 59–154).  The guard on
line 84 returns the zero result for degenerate inputs; otherwise the schedule
loop runs and `total_pago = PMT * (n - 1) + parcelas[-1]["valor_parcela"]`
(line 147). -/
def calcular_tabela_price (valor_principal taxa_juros_mensal : ℚ)
    (numero_parcelas : ℤ) : ResultadoPrice :=
  if valor_principal ≤ 0 ∨ numero_parcelas ≤ 0 then ⟨0, 0, 0, []⟩
  else
    let i := taxa_juros_mensal / 100
    let n := numero_parcelas.toNat
    let PMT := pricePMT valor_principal i n
    let res := priceAux i PMT n n 1 valor_principal 0
    let ultima := ((res.1.getLast?.map fun p => p.valor_parcela).getD 0)
    ⟨round2 PMT, round2 (PMT * ((n : ℚ) - 1) + ultima), round2 res.2, res.1⟩

/-- The loop of `FinancialCalculator.calcular_sac`, lines 204–229: constant
amortization `amort`, varying payment `amort + juros`. -/
def sacAux (i amort : ℚ) : ℕ → ℕ → ℚ → ℚ → List Parcela × ℚ
  | 0, _, _, tj => ([], tj)
  | fuel + 1, k, saldo, tj =>
      let juros := saldo * i
      let valor := amort + juros
      let saldo2 := snap (saldo - amort)
      let rest := sacAux i amort fuel (k + 1) saldo2 (tj + juros)
      (⟨k, round2 valor, round2 juros, round2 amort, round2 saldo2⟩ :: rest.1, rest.2)

/-- The result dictionary of `FinancialCalculator.calcular_sac`. -/
structure ResultadoSac where
  valor_parcela_inicial : ℚ
  valor_parcela_final : ℚ
  total_pago : ℚ
  total_juros : ℚ
  parcelas : List Parcela

/-- Embedding of `FinancialCalculator.calcular_sac` (lines 156–239).  The guard on line 180
returns the zero result; otherwise `total_pago` is the sum of the rounded
per-row payments (line 231). -/
def calcular_sac (valor_principal taxa_juros_mensal : ℚ)
    (numero_parcelas : ℤ) : ResultadoSac :=
  if valor_principal ≤ 0 ∨ numero_parcelas ≤ 0 then ⟨0, 0, 0, 0, []⟩
  else
    let i := taxa_juros_mensal / 100
    let n := numero_parcelas.toNat
    let amort := valor_principal / n
    let res := sacAux i amort n 1 valor_principal 0
    let inicial := match res.1 with
      | [] => 0
      | p :: _ => round2 p.valor_parcela
    let final := match res.1.getLast? with
      | none => 0
      | some p => round2 p.valor_parcela
    ⟨inicial, final, round2 ((res.1.map fun p => p.valor_parcela).sum),
      round2 res.2, res.1⟩

/-- Embedding of `FinancialCalculator.detectar_metodologia_amortizacao` (lines 241–287).
The outer `Option` embeds the `ZeroDivisionError` the two divisions on lines
275–276 raise when `valor_parcela_contrato == 0` (`none` = raised); a normal
return is `some` of the detected methodology (`some "price"`, `some "sac"` or
`none` for undetermined). -/
def detectar_metodologia_amortizacao (valor_principal taxa_juros_mensal : ℚ)
    (numero_parcelas : ℤ) (valor_parcela_contrato : ℚ) (tolerancia : ℚ) :
    Option (Option String) :=
  if valor_parcela_contrato = 0 then none
  else
    let valor_price :=
      (calcular_tabela_price valor_principal taxa_juros_mensal numero_parcelas).valor_parcela
    let valor_sac_inicial :=
      (calcular_sac valor_principal taxa_juros_mensal numero_parcelas).valor_parcela_inicial
    let diff_price := |valor_price - valor_parcela_contrato| / valor_parcela_contrato
    let diff_sac := |valor_sac_inicial - valor_parcela_contrato| / valor_parcela_contrato
    some (if diff_price ≤ tolerancia ∧ diff_price < diff_sac then some "price"
      else if diff_sac ≤ tolerancia ∧ diff_sac < diff_price then some "sac"
      else none)

/-- Embedding of `FinancialCalculator.converter_taxa_anual_para_mensal` (lines 13–34), with
`math.pow` modelled as the real power `(1 + anual/100) ^ (1/12)`. -/
noncomputable def converter_taxa_anual_para_mensal (taxa_anual : ℝ) : ℝ :=
  if taxa_anual ≤ 0 then 0
  else ((1 + taxa_anual / 100) ^ ((1 : ℝ) / 12) - 1) * 100

/-- Embedding of `FinancialCalculator.converter_taxa_mensal_para_anual` (lines 36–57), with
`math.pow` modelled as the real power `(1 + mensal/100) ^ 12`. -/
noncomputable def converter_taxa_mensal_para_anual (taxa_mensal : ℝ) : ℝ :=
  if taxa_mensal ≤ 0 then 0
  else ((1 + taxa_mensal / 100) ^ (12 : ℝ) - 1) * 100

/-- The conversion `converter_taxa_mensal_para_anual` again, over `ℚ`: the exponent 12 is an
integer, so this conversion is exactly representable in rational arithmetic.
Used by `recalcular_contrato` for the `diferenca_taxa` field. -/
def converter_taxa_mensal_para_anual_q (taxa_mensal : ℚ) : ℚ :=
  if taxa_mensal ≤ 0 then 0
  else ((1 + taxa_mensal / 100) ^ (12 : ℕ) - 1) * 100

/-- Python truthiness of an optional float: `None` and `0.0` are falsy. -/
def truthyQ : Option ℚ → Bool
  | none => false
  | some x => decide (x ≠ 0)

/-- Python truthiness of an optional string: `None` and `""` are falsy. -/
def truthyS : Option String → Bool
  | none => false
  | some s => decide (s ≠ "")

/-- Python's `f"{v:.2f}"`, over `ℚ`: two-decimal fixed-point rendering of the
value rounded to the nearest centesimal. -/
def fmt2 (q : ℚ) : String :=
  let c : ℤ := round (q * 100)
  let sign := if c < 0 then "-" else ""
  let a := c.natAbs
  sign ++ toString (a / 100) ++ "." ++ (if a % 100 < 10 then "0" else "") ++ toString (a % 100)

/-- The error message of `recalcular_contrato` line 120. -/
def msg_taxa_indisponivel : String := "Taxa de juros não disponível para recálculo"

/-- The text `str(e)` of the `ZeroDivisionError` that a division by a zero float raises
(caught by the `except` on line 177). -/
def msg_divisao_por_zero : String := "float division by zero"

/-- The warning of `recalcular_contrato` lines 104–108 (found reference rate;
the contracting-date rendering of the original f-string is elided). -/
def msg_aviso_posfixada_ok (indexador : String) (taxa : ℚ) : String :=
  "Taxa pós-fixada baseada em " ++ indexador.toUpper ++ " do período. " ++
    "Valor final só será conhecido após período de referência. " ++
    "Usando " ++ indexador.toUpper ++ ": " ++ fmt2 taxa ++ "% a.a."

/-- The warning of `recalcular_contrato` lines 110–113 (reference-rate lookup
failed; the date rendering of the original f-string is elided). -/
def msg_aviso_posfixada_falha (indexador : String) : String :=
  "Não foi possível buscar " ++ indexador.toUpper ++ " do BACEN para a data. " ++
    "Usando taxa do contrato como estimativa."

/-- The `comparacao` dictionary built by `recalcular_contrato`, lines 152–166. -/
structure Comparacao where
  valor_parcela_contrato : Option ℚ
  valor_parcela_price : ℚ
  valor_parcela_sac_inicial : ℚ
  diferenca_price : Option ℚ
  diferenca_sac : Option ℚ
  total_pago_price : ℚ
  total_pago_sac : ℚ
  total_juros_price : ℚ
  total_juros_sac : ℚ

/-- The `resultado` dictionary of `RecalculoBacen.recalcular_contrato`, lines
63–74 (the keys `taxa_bacen_mensal` and `taxa_efetiva_mensal` are added only on
the found-reference-rate path and are `none` otherwise). -/
structure Resultado where
  sucesso : Bool
  erro : Option String
  metodologia_detectada : Option String
  taxa_bacen : Option ℚ
  taxa_contrato : Option ℚ
  diferenca_taxa : Option ℚ
  recalculo_price : Option ResultadoPrice
  recalculo_sac : Option ResultadoSac
  comparacao : Option Comparacao
  aviso_taxa_posfixada : Option String
  taxa_bacen_mensal : Option ℚ
  taxa_efetiva_mensal : Option ℚ

/-- The `resultado` dictionary as initialized on lines 63–74 of
`recalcular_contrato`. -/
def resultadoBase (taxa_juros_contrato : Option ℚ) : Resultado :=
  { sucesso := false, erro := none, metodologia_detectada := none,
    taxa_bacen := none, taxa_contrato := taxa_juros_contrato, diferenca_taxa := none,
    recalculo_price := none, recalculo_sac := none, comparacao := none,
    aviso_taxa_posfixada := none, taxa_bacen_mensal := none, taxa_efetiva_mensal := none }

/-- The effective-rate resolution of `recalcular_contrato`, lines 81–117:
returns the partially filled report, the effective monthly rate
(`taxa_efetiva`), and the `taxa_bacen` local variable. -/
def resolveTaxa (conv : ℚ → ℚ) (taxa_bacen_lookup : Option ℚ)
    (taxa_juros_contrato : Option ℚ) (tipo_taxa indexador : String) :
    Resultado × ℚ × Option ℚ :=
  let base := resultadoBase taxa_juros_contrato
  if tipo_taxa = "posfixada" then
    let tb : Option ℚ :=
      if indexador.toLower = "selic" then taxa_bacen_lookup
      else if indexador.toLower = "cdi" then taxa_bacen_lookup
      else none
    if truthyQ tb then
      let tbv := tb.getD 0
      let tbm := conv tbv
      let te := if truthyQ taxa_juros_contrato then tbm + taxa_juros_contrato.getD 0 else tbm
      ({ base with
          taxa_bacen := some tbv
          taxa_bacen_mensal := some tbm
          taxa_efetiva_mensal := some te
          aviso_taxa_posfixada := some (msg_aviso_posfixada_ok indexador tbv) }, te, tb)
    else
      ({ base with aviso_taxa_posfixada := some (msg_aviso_posfixada_falha indexador) },
        taxa_juros_contrato.getD 0, tb)
  else (base, taxa_juros_contrato.getD 0, none)

/-- Embedding of `RecalculoBacen.recalcular_contrato` (lines 34–181).

`conv` stands for `FinancialCalculator.converter_taxa_anual_para_mensal` as
invoked on line 92 (a float-transcendental conversion, abstracted as a
parameter — every theorem below holds for an arbitrary `conv`), and
`taxa_bacen_lookup` stands for the value the external BACEN client returned
(`buscar_taxa_selic` / `buscar_cdi`, lines 86–88).  Date parsing/formatting
(lines 77–79) affects no numeric field and is elided. -/
def recalcular_contrato (conv : ℚ → ℚ) (taxa_bacen_lookup : Option ℚ)
    (valor_principal : ℚ) (taxa_juros_contrato : Option ℚ) (numero_parcelas : ℤ)
    (valor_parcela_contrato : Option ℚ) (tipo_taxa indexador : String)
    (metodologia : Option String) : Resultado :=
  let resolved := resolveTaxa conv taxa_bacen_lookup taxa_juros_contrato tipo_taxa indexador
  let r1 := resolved.1
  let taxa_efetiva := resolved.2.1
  let taxa_bacen_var := resolved.2.2
  if taxa_efetiva ≤ 0 then { r1 with erro := some msg_taxa_indisponivel }
  else
    let detStep : Option (Option String) :=
      if truthyS metodologia = false ∧ truthyQ valor_parcela_contrato = true then
        detectar_metodologia_amortizacao valor_principal taxa_efetiva numero_parcelas
          (valor_parcela_contrato.getD 0) (1 / 100)
      else some none
    match detStep with
    | none => { r1 with erro := some msg_divisao_por_zero }
    | some det =>
      let rp := calcular_tabela_price valor_principal taxa_efetiva numero_parcelas
      let rs := calcular_sac valor_principal taxa_efetiva numero_parcelas
      let comp : Comparacao :=
        { valor_parcela_contrato := valor_parcela_contrato,
          valor_parcela_price := rp.valor_parcela,
          valor_parcela_sac_inicial := rs.valor_parcela_inicial,
          diferenca_price := if truthyQ valor_parcela_contrato then
              some |rp.valor_parcela - valor_parcela_contrato.getD 0| else none,
          diferenca_sac := if truthyQ valor_parcela_contrato then
              some |rs.valor_parcela_inicial - valor_parcela_contrato.getD 0| else none,
          total_pago_price := rp.total_pago, total_pago_sac := rs.total_pago,
          total_juros_price := rp.total_juros, total_juros_sac := rs.total_juros }
      let dt : Option ℚ :=
        if truthyQ taxa_bacen_var ∧ truthyQ taxa_juros_contrato then
          some |converter_taxa_mensal_para_anual_q (taxa_juros_contrato.getD 0) -
            taxa_bacen_var.getD 0|
        else none
      { r1 with
          metodologia_detectada := det
          recalculo_price := some rp
          recalculo_sac := some rs
          comparacao := some comp
          diferenca_taxa := dt
          sucesso := true }

/-- The `validacao` dictionary of `RecalculoBacen.validar_contrato`, lines
197–201 (the `metodologia` key is added only when a methodology was detected
and is `none` otherwise). -/
structure Validacao where
  valido : Bool
  irregularidades : List String
  aviso : List String
  metodologia : Option String

/-- The advisory of `validar_contrato` line 214 (`str(None)` renders as
`"None"`). -/
def msg_nao_recalculado (erro : Option String) : String :=
  "Não foi possível recalcular: " ++ (match erro with | some s => s | none => "None")

/-- The irregularity finding of `validar_contrato` lines 224–228: names the
contract-stated value, the computed Price payment and their difference. -/
def msg_divergencia_price (contrato price diff : ℚ) : String :=
  "Divergência no valor da parcela: contrato informa R$ " ++ fmt2 contrato ++
    ", mas cálculo Price resulta em R$ " ++ fmt2 price ++
    " (diferença de R$ " ++ fmt2 diff ++ ")"

/-- The SAC advisory of `validar_contrato` lines 232–235. -/
def msg_divergencia_sac (sacInicial diff : ℚ) : String :=
  "Se for SAC, divergência: primeira parcela deveria ser R$ " ++ fmt2 sacInicial ++
    " (diferença de R$ " ++ fmt2 diff ++ ")"

/-- The advisory of `validar_contrato` line 241. -/
def msg_metodologia_nao_detectada : String :=
  "Não foi possível detectar a metodologia de amortização (Price ou SAC)"

/-- Embedding of `RecalculoBacen.validar_contrato` (lines 183–246).  Invokes
`recalcular_contrato` with the default keyword arguments
(`tipo_taxa="prefixada"`, `indexador="selic"`, `metodologia=None`); the
tolerance on lines 223 and 231 is R$ 1.00. -/
def validar_contrato (conv : ℚ → ℚ) (taxa_bacen_lookup : Option ℚ)
    (valor_principal : ℚ) (taxa_juros_contrato : Option ℚ) (numero_parcelas : ℤ)
    (valor_parcela_contrato : Option ℚ) : Validacao :=
  let recalculo := recalcular_contrato conv taxa_bacen_lookup valor_principal
    taxa_juros_contrato numero_parcelas valor_parcela_contrato "prefixada" "selic" none
  if recalculo.sucesso = false then
    { valido := true, irregularidades := [],
      aviso := [msg_nao_recalculado recalculo.erro], metodologia := none }
  else
    let pair : List String × List String :=
      match recalculo.comparacao with
      | none => ([], [])
      | some c =>
        if truthyQ valor_parcela_contrato then
          let irr : List String :=
            match c.diferenca_price with
            | some dp =>
              if dp ≠ 0 ∧ 1 < dp then
                [msg_divergencia_price (valor_parcela_contrato.getD 0)
                  ((recalculo.recalculo_price.map fun r => r.valor_parcela).getD 0) dp]
              else []
            | none => []
          let av : List String :=
            match c.diferenca_sac with
            | some ds =>
              if ds ≠ 0 ∧ 1 < ds then
                [msg_divergencia_sac
                  ((recalculo.recalculo_sac.map fun r => r.valor_parcela_inicial).getD 0) ds]
              else []
            | none => []
          (irr, av)
        else ([], [])
    let detAv : List String :=
      if truthyS recalculo.metodologia_detectada then [] else [msg_metodologia_nao_detectada]
    let metod : Option String :=
      if truthyS recalculo.metodologia_detectada then recalculo.metodologia_detectada else none
    { valido := pair.1.isEmpty, irregularidades := pair.1,
      aviso := pair.2 ++ detAv, metodologia := metod }

/-! ## Rounding lemmas -/

lemma round2_zero : round2 0 = 0 := by
  norm_num [round2]

lemma snap_zero : snap 0 = 0 := by
  norm_num [snap]

lemma abs_round2_sub_le (q : ℚ) : |round2 q - q| ≤ 1 / 200 := by
  have h := abs_sub_round (q * 100)
  have heq : round2 q - q = -((q * 100 - (round (q * 100) : ℚ)) / 100) := by
    rw [round2]; ring
  rw [heq, abs_neg, abs_div, abs_of_pos (by norm_num : (0 : ℚ) < 100)]
  linarith

/-- Rounding each of two summands and rounding their sum agree to within one
cent: the three rounding errors are at most half a cent each, and the
discrepancy is an integer number of cents. -/
lemma round2_add_err (a b : ℚ) : |round2 (a + b) - (round2 a + round2 b)| ≤ 1 / 100 := by
  have hx := abs_le.mp (abs_sub_round ((a + b) * 100))
  have hy := abs_le.mp (abs_sub_round (a * 100))
  have hz := abs_le.mp (abs_sub_round (b * 100))
  have hcast :
      |((round ((a + b) * 100) - round (a * 100) - round (b * 100) : ℤ) : ℚ)| ≤ 3 / 2 := by
    have he : ((round ((a + b) * 100) - round (a * 100) - round (b * 100) : ℤ) : ℚ)
        = -((a + b) * 100 - (round ((a + b) * 100) : ℚ))
          + (a * 100 - (round (a * 100) : ℚ)) + (b * 100 - (round (b * 100) : ℚ)) := by
      push_cast
      ring
    rw [he, abs_le]
    exact ⟨by linarith [hx.1, hx.2, hy.1, hy.2, hz.1, hz.2],
      by linarith [hx.1, hx.2, hy.1, hy.2, hz.1, hz.2]⟩
  have hint : |round ((a + b) * 100) - round (a * 100) - round (b * 100)| ≤ 1 := by
    have h2 : |((round ((a + b) * 100) - round (a * 100) - round (b * 100) : ℤ) : ℚ)| < 2 :=
      lt_of_le_of_lt hcast (by norm_num)
    rw [← Int.cast_abs] at h2
    have h3 : |round ((a + b) * 100) - round (a * 100) - round (b * 100)| < 2 := by
      exact_mod_cast h2
    omega
  have hfinal : round2 (a + b) - (round2 a + round2 b)
      = ((round ((a + b) * 100) - round (a * 100) - round (b * 100) : ℤ) : ℚ) / 100 := by
    simp only [round2]
    push_cast
    ring
  rw [hfinal, abs_div, abs_of_pos (by norm_num : (0 : ℚ) < 100)]
  have h1 : |((round ((a + b) * 100) - round (a * 100) - round (b * 100) : ℤ) : ℚ)| ≤ 1 := by
    rw [← Int.cast_abs]
    exact_mod_cast hint
  linarith

/-! ## Unfolding equations for the schedule loops -/

lemma priceAux_zero (i PMT : ℚ) (n k : ℕ) (saldo tj : ℚ) :
    priceAux i PMT n 0 k saldo tj = ([], tj) := by
  simp [priceAux]

lemma priceAux_succ_ne (i PMT : ℚ) (n fuel k : ℕ) (saldo tj : ℚ) (hk : k ≠ n) :
    priceAux i PMT n (fuel + 1) k saldo tj =
      ((⟨k, round2 PMT, round2 (saldo * i), round2 (PMT - saldo * i),
          round2 (snap (saldo - (PMT - saldo * i)))⟩ : Parcela) ::
        (priceAux i PMT n fuel (k + 1) (snap (saldo - (PMT - saldo * i))) (tj + saldo * i)).1,
      (priceAux i PMT n fuel (k + 1) (snap (saldo - (PMT - saldo * i))) (tj + saldo * i)).2) := by
  simp only [priceAux]
  simp [hk]

lemma priceAux_succ_eq (i PMT : ℚ) (n fuel : ℕ) (saldo tj : ℚ) :
    priceAux i PMT n (fuel + 1) n saldo tj =
      ((⟨n, round2 (saldo + saldo * i), round2 (saldo * i), round2 saldo,
          round2 0⟩ : Parcela) ::
        (priceAux i PMT n fuel (n + 1) 0 (tj + saldo * i)).1,
      (priceAux i PMT n fuel (n + 1) 0 (tj + saldo * i)).2) := by
  simp only [priceAux]
  simp [sub_self, snap_zero]

lemma sacAux_zero (i amort : ℚ) (k : ℕ) (saldo tj : ℚ) :
    sacAux i amort 0 k saldo tj = ([], tj) := by
  simp [sacAux]

lemma sacAux_succ (i amort : ℚ) (fuel k : ℕ) (saldo tj : ℚ) :
    sacAux i amort (fuel + 1) k saldo tj =
      ((⟨k, round2 (amort + saldo * i), round2 (saldo * i), round2 amort,
          round2 (snap (saldo - amort))⟩ : Parcela) ::
        (sacAux i amort fuel (k + 1) (snap (saldo - amort)) (tj + saldo * i)).1,
      (sacAux i amort fuel (k + 1) (snap (saldo - amort)) (tj + saldo * i)).2) := by
  simp only [sacAux]

lemma getLast?_cons_of_getLast? {α : Type} (a : α) (l : List α) (b : α)
    (h : l.getLast? = some b) : (a :: l).getLast? = some b := by
  cases l with
  | nil => simp at h
  | cons c t => rw [List.getLast?_cons_cons]; exact h

/-! ## Structural lemmas about the schedule loops -/

/-- When the Price loop still has `f + 1` iterations to run at parcel `k`
(`k + f = n`, so iteration `n` is the last to run), the produced rows end in a
row whose (rounded) remaining balance is exactly zero, and the sum of the
rows' payment fields is `f` copies of the rounded PMT plus the final row's
payment. -/
lemma price_last_sum (i PMT : ℚ) (n : ℕ) :
    ∀ f k saldo tj, k + f = n →
      ∃ last, (priceAux i PMT n (f + 1) k saldo tj).1.getLast? = some last ∧
        last.saldo_devedor = 0 ∧
        ((priceAux i PMT n (f + 1) k saldo tj).1.map fun p => p.valor_parcela).sum
          = (f : ℚ) * round2 PMT + last.valor_parcela := by
  intro f
  induction f with
  | zero =>
    intro k saldo tj hk
    have hkn : k = n := by omega
    rw [hkn, priceAux_succ_eq, priceAux_zero]
    refine ⟨⟨n, round2 (saldo + saldo * i), round2 (saldo * i), round2 saldo, round2 0⟩,
      by simp, round2_zero, by simp⟩
  | succ f ih =>
    intro k saldo tj hk
    have hkn : k ≠ n := by omega
    rw [priceAux_succ_ne _ _ _ _ _ _ _ hkn]
    obtain ⟨last, hl, hs, hsum⟩ :=
      ih (k + 1) (snap (saldo - (PMT - saldo * i))) (tj + saldo * i) (by omega)
    refine ⟨last, getLast?_cons_of_getLast? _ _ _ hl, hs, ?_⟩
    rw [List.map_cons, List.sum_cons, hsum]
    push_cast
    ring

/-- Every row of the Price loop carries a rounded interest, a rounded
amortization, and a payment that is the rounding of their exact sum. -/
lemma priceAux_shape (i PMT : ℚ) (n : ℕ) :
    ∀ fuel k saldo tj, ∀ p ∈ (priceAux i PMT n fuel k saldo tj).1,
      ∃ j a, p.juros = round2 j ∧ p.amortizacao = round2 a ∧
        p.valor_parcela = round2 (j + a) := by
  intro fuel
  induction fuel with
  | zero =>
    intro k saldo tj p hp
    rw [priceAux_zero] at hp
    simp at hp
  | succ f ih =>
    intro k saldo tj p hp
    by_cases hk : k = n
    · subst hk
      rw [priceAux_succ_eq] at hp
      rcases List.mem_cons.mp hp with hp | hp
      · subst hp
        exact ⟨saldo * i, saldo, rfl, rfl, by rw [add_comm]⟩
      · exact ih _ _ _ _ hp
    · rw [priceAux_succ_ne _ _ _ _ _ _ _ hk] at hp
      rcases List.mem_cons.mp hp with hp | hp
      · subst hp
        refine ⟨saldo * i, PMT - saldo * i, rfl, rfl, ?_⟩
        have : saldo * i + (PMT - saldo * i) = PMT := by ring
        rw [this]
      · exact ih _ _ _ _ hp

/-- Every row of the SAC loop likewise. -/
lemma sacAux_shape (i amort : ℚ) :
    ∀ fuel k saldo tj, ∀ p ∈ (sacAux i amort fuel k saldo tj).1,
      ∃ j a, p.juros = round2 j ∧ p.amortizacao = round2 a ∧
        p.valor_parcela = round2 (j + a) := by
  intro fuel
  induction fuel with
  | zero =>
    intro k saldo tj p hp
    rw [sacAux_zero] at hp
    simp at hp
  | succ f ih =>
    intro k saldo tj p hp
    rw [sacAux_succ] at hp
    rcases List.mem_cons.mp hp with hp | hp
    · subst hp
      exact ⟨saldo * i, amort, rfl, rfl, by rw [add_comm]⟩
    · exact ih _ _ _ _ hp

/-- The sum of the rounded per-row interest fields of the Price loop differs
from the exact accumulated interest by at most half a cent per iteration. -/
lemma priceAux_juros_sum (i PMT : ℚ) (n : ℕ) :
    ∀ fuel k saldo tj,
      |((priceAux i PMT n fuel k saldo tj).1.map fun p => p.juros).sum
        - ((priceAux i PMT n fuel k saldo tj).2 - tj)| ≤ (fuel : ℚ) / 200 := by
  intro fuel
  induction fuel with
  | zero =>
    intro k saldo tj
    rw [priceAux_zero]
    simp
  | succ f ih =>
    intro k saldo tj
    by_cases hk : k = n
    · rw [hk, priceAux_succ_eq]
      have h1 := abs_round2_sub_le (saldo * i)
      have h2 := ih (n + 1) 0 (tj + saldo * i)
      have hre :
          ((List.map (fun p => p.juros)
              ((⟨n, round2 (saldo + saldo * i), round2 (saldo * i), round2 saldo,
                round2 0⟩ : Parcela) ::
                (priceAux i PMT n f (n + 1) 0 (tj + saldo * i)).1)).sum
            - ((priceAux i PMT n f (n + 1) 0 (tj + saldo * i)).2 - tj))
          = (round2 (saldo * i) - saldo * i)
            + (((priceAux i PMT n f (n + 1) 0 (tj + saldo * i)).1.map fun p => p.juros).sum
              - ((priceAux i PMT n f (n + 1) 0 (tj + saldo * i)).2 - (tj + saldo * i))) := by
        rw [List.map_cons, List.sum_cons]
        ring
      rw [hre]
      calc |(round2 (saldo * i) - saldo * i)
            + (((priceAux i PMT n f (n + 1) 0 (tj + saldo * i)).1.map fun p => p.juros).sum
              - ((priceAux i PMT n f (n + 1) 0 (tj + saldo * i)).2 - (tj + saldo * i)))|
          ≤ |round2 (saldo * i) - saldo * i|
            + |((priceAux i PMT n f (n + 1) 0 (tj + saldo * i)).1.map fun p => p.juros).sum
              - ((priceAux i PMT n f (n + 1) 0 (tj + saldo * i)).2 - (tj + saldo * i))| :=
            abs_add _ _
        _ ≤ 1 / 200 + (f : ℚ) / 200 := add_le_add h1 h2
        _ = ((f + 1 : ℕ) : ℚ) / 200 := by push_cast; ring
    · rw [priceAux_succ_ne _ _ _ _ _ _ _ hk]
      have h1 := abs_round2_sub_le (saldo * i)
      have h2 := ih (k + 1) (snap (saldo - (PMT - saldo * i))) (tj + saldo * i)
      have hre :
          ((List.map (fun p => p.juros)
              ((⟨k, round2 PMT, round2 (saldo * i), round2 (PMT - saldo * i),
                round2 (snap (saldo - (PMT - saldo * i)))⟩ : Parcela) ::
                (priceAux i PMT n f (k + 1) (snap (saldo - (PMT - saldo * i)))
                  (tj + saldo * i)).1)).sum
            - ((priceAux i PMT n f (k + 1) (snap (saldo - (PMT - saldo * i)))
                (tj + saldo * i)).2 - tj))
          = (round2 (saldo * i) - saldo * i)
            + (((priceAux i PMT n f (k + 1) (snap (saldo - (PMT - saldo * i)))
                (tj + saldo * i)).1.map fun p => p.juros).sum
              - ((priceAux i PMT n f (k + 1) (snap (saldo - (PMT - saldo * i)))
                (tj + saldo * i)).2 - (tj + saldo * i))) := by
        rw [List.map_cons, List.sum_cons]
        ring
      rw [hre]
      calc |(round2 (saldo * i) - saldo * i)
            + (((priceAux i PMT n f (k + 1) (snap (saldo - (PMT - saldo * i)))
                (tj + saldo * i)).1.map fun p => p.juros).sum
              - ((priceAux i PMT n f (k + 1) (snap (saldo - (PMT - saldo * i)))
                (tj + saldo * i)).2 - (tj + saldo * i)))|
          ≤ |round2 (saldo * i) - saldo * i|
            + |((priceAux i PMT n f (k + 1) (snap (saldo - (PMT - saldo * i)))
                (tj + saldo * i)).1.map fun p => p.juros).sum
              - ((priceAux i PMT n f (k + 1) (snap (saldo - (PMT - saldo * i)))
                (tj + saldo * i)).2 - (tj + saldo * i))| := abs_add _ _
        _ ≤ 1 / 200 + (f : ℚ) / 200 := add_le_add h1 h2
        _ = ((f + 1 : ℕ) : ℚ) / 200 := by push_cast; ring

/-- The analogue of `priceAux_juros_sum` for the SAC loop. -/
lemma sacAux_juros_sum (i amort : ℚ) :
    ∀ fuel k saldo tj,
      |((sacAux i amort fuel k saldo tj).1.map fun p => p.juros).sum
        - ((sacAux i amort fuel k saldo tj).2 - tj)| ≤ (fuel : ℚ) / 200 := by
  intro fuel
  induction fuel with
  | zero =>
    intro k saldo tj
    rw [sacAux_zero]
    simp
  | succ f ih =>
    intro k saldo tj
    rw [sacAux_succ]
    have h1 := abs_round2_sub_le (saldo * i)
    have h2 := ih (k + 1) (snap (saldo - amort)) (tj + saldo * i)
    have hre :
        ((List.map (fun p => p.juros)
            ((⟨k, round2 (amort + saldo * i), round2 (saldo * i), round2 amort,
              round2 (snap (saldo - amort))⟩ : Parcela) ::
              (sacAux i amort f (k + 1) (snap (saldo - amort)) (tj + saldo * i)).1)).sum
          - ((sacAux i amort f (k + 1) (snap (saldo - amort)) (tj + saldo * i)).2 - tj))
        = (round2 (saldo * i) - saldo * i)
          + (((sacAux i amort f (k + 1) (snap (saldo - amort)) (tj + saldo * i)).1.map
              fun p => p.juros).sum
            - ((sacAux i amort f (k + 1) (snap (saldo - amort)) (tj + saldo * i)).2
              - (tj + saldo * i))) := by
      rw [List.map_cons, List.sum_cons]
      ring
    rw [hre]
    calc |(round2 (saldo * i) - saldo * i)
          + (((sacAux i amort f (k + 1) (snap (saldo - amort)) (tj + saldo * i)).1.map
              fun p => p.juros).sum
            - ((sacAux i amort f (k + 1) (snap (saldo - amort)) (tj + saldo * i)).2
              - (tj + saldo * i)))|
        ≤ |round2 (saldo * i) - saldo * i|
          + |((sacAux i amort f (k + 1) (snap (saldo - amort)) (tj + saldo * i)).1.map
              fun p => p.juros).sum
            - ((sacAux i amort f (k + 1) (snap (saldo - amort)) (tj + saldo * i)).2
              - (tj + saldo * i))| := abs_add _ _
      _ ≤ 1 / 200 + (f : ℚ) / 200 := add_le_add h1 h2
      _ = ((f + 1 : ℕ) : ℚ) / 200 := by push_cast; ring

/-! ## Unfolding the calculators on non-degenerate inputs -/

lemma calcular_tabela_price_eq (P r : ℚ) (np : ℤ) (hP : 0 < P) (hnp : 1 ≤ np) :
    calcular_tabela_price P r np =
      ⟨round2 (pricePMT P (r / 100) np.toNat),
        round2 (pricePMT P (r / 100) np.toNat * ((np.toNat : ℚ) - 1) +
          (((priceAux (r / 100) (pricePMT P (r / 100) np.toNat) np.toNat np.toNat 1
              P 0).1.getLast?.map fun p => p.valor_parcela).getD 0)),
        round2 (priceAux (r / 100) (pricePMT P (r / 100) np.toNat) np.toNat np.toNat 1 P 0).2,
        (priceAux (r / 100) (pricePMT P (r / 100) np.toNat) np.toNat np.toNat 1 P 0).1⟩ := by
  have hg : ¬(P ≤ 0 ∨ np ≤ 0) := by push_neg; exact ⟨hP, by omega⟩
  unfold calcular_tabela_price
  rw [if_neg hg]

lemma calcular_sac_parcelas (P r : ℚ) (np : ℤ) (hP : 0 < P) (hnp : 1 ≤ np) :
    (calcular_sac P r np).parcelas
      = (sacAux (r / 100) (P / (np.toNat : ℚ)) np.toNat 1 P 0).1 := by
  have hg : ¬(P ≤ 0 ∨ np ≤ 0) := by push_neg; exact ⟨hP, by omega⟩
  unfold calcular_sac
  rw [if_neg hg]

lemma calcular_sac_total_pago (P r : ℚ) (np : ℤ) (hP : 0 < P) (hnp : 1 ≤ np) :
    (calcular_sac P r np).total_pago
      = round2 (((sacAux (r / 100) (P / (np.toNat : ℚ)) np.toNat 1 P 0).1.map
          fun p => p.valor_parcela).sum) := by
  have hg : ¬(P ≤ 0 ∨ np ≤ 0) := by push_neg; exact ⟨hP, by omega⟩
  unfold calcular_sac
  rw [if_neg hg]

lemma calcular_sac_total_juros (P r : ℚ) (np : ℤ) (hP : 0 < P) (hnp : 1 ≤ np) :
    (calcular_sac P r np).total_juros
      = round2 (sacAux (r / 100) (P / (np.toNat : ℚ)) np.toNat 1 P 0).2 := by
  have hg : ¬(P ≤ 0 ∨ np ≤ 0) := by push_neg; exact ⟨hP, by omega⟩
  unfold calcular_sac
  rw [if_neg hg]

/-! ## C1: the annuity schedule ends with a zero balance -/

/-- C1: for every principal > 0, monthly rate ≥ 0 and installment count ≥ 1,
the schedule produced by `calcular_tabela_price` has a final entry whose
remaining balance `saldo_devedor` is within 0.01 of zero (it is exactly zero:
the last period amortizes the remaining balance exactly, so the balance is
snapped to zero). -/
theorem annuity_final_balance_within_tolerance
    (valor_principal taxa_juros_mensal : ℚ) (numero_parcelas : ℤ)
    (hP : 0 < valor_principal) (hr : 0 ≤ taxa_juros_mensal) (hn : 1 ≤ numero_parcelas) :
    ∃ p, (calcular_tabela_price valor_principal taxa_juros_mensal
        numero_parcelas).parcelas.getLast? = some p ∧ |p.saldo_devedor| ≤ 1 / 100 := by
  have h := calcular_tabela_price_eq valor_principal taxa_juros_mensal numero_parcelas hP hn
  set n := numero_parcelas.toNat with hndef
  obtain ⟨f, hf⟩ : ∃ f, n = f + 1 := ⟨n - 1, by omega⟩
  obtain ⟨last, hl, hs, hsum⟩ := price_last_sum (taxa_juros_mensal / 100)
    (pricePMT valor_principal (taxa_juros_mensal / 100) n) n f 1 valor_principal 0 (by omega)
  rw [← hf] at hl
  refine ⟨last, ?_, ?_⟩
  · rw [h]
    exact hl
  · rw [hs]
    norm_num

/-- Witness for C1 at principal 1000, rate 2%, 12 installments. -/
theorem annuity_final_balance_within_tolerance_witness :
    0 < (1000 : ℚ) ∧ 0 ≤ (2 : ℚ) ∧ 1 ≤ (12 : ℤ) ∧
      ∃ p, (calcular_tabela_price 1000 2 12).parcelas.getLast? = some p ∧
        |p.saldo_devedor| ≤ 1 / 100 :=
  ⟨by norm_num, by norm_num, by norm_num,
    annuity_final_balance_within_tolerance 1000 2 12 (by norm_num) (by norm_num) (by norm_num)⟩

/-! ## C3: per-entry payment decomposition -/

/-- C3: for every entry of every schedule produced by `calcular_tabela_price`
and by `calcular_sac` (principal > 0, count ≥ 1), the entry's payment equals
its interest portion plus its principal portion within 0.01: each field is a
rounding of the exact quantity, and the three rounding errors differ by an
integer number of cents of magnitude at most one. -/
theorem payment_decomposition_within_cent
    (valor_principal taxa_juros_mensal : ℚ) (numero_parcelas : ℤ)
    (hP : 0 < valor_principal) (hn : 1 ≤ numero_parcelas) :
    (∀ p ∈ (calcular_tabela_price valor_principal taxa_juros_mensal numero_parcelas).parcelas,
        |p.valor_parcela - (p.juros + p.amortizacao)| ≤ 1 / 100) ∧
    (∀ p ∈ (calcular_sac valor_principal taxa_juros_mensal numero_parcelas).parcelas,
        |p.valor_parcela - (p.juros + p.amortizacao)| ≤ 1 / 100) := by
  have h := calcular_tabela_price_eq valor_principal taxa_juros_mensal numero_parcelas hP hn
  have hs := calcular_sac_parcelas valor_principal taxa_juros_mensal numero_parcelas hP hn
  constructor
  · intro p hp
    rw [h] at hp
    obtain ⟨j, a, hj, ha, hv⟩ := priceAux_shape _ _ _ _ _ _ _ p hp
    rw [hv, hj, ha]
    exact round2_add_err j a
  · intro p hp
    rw [hs] at hp
    obtain ⟨j, a, hj, ha, hv⟩ := sacAux_shape _ _ _ _ _ _ p hp
    rw [hv, hj, ha]
    exact round2_add_err j a

/-- Witness for C3 at principal 50, rate 1.4%, 5 installments. -/
theorem payment_decomposition_within_cent_witness :
    0 < (50 : ℚ) ∧ 1 ≤ (5 : ℤ) ∧
      ((∀ p ∈ (calcular_tabela_price 50 (14 / 10) 5).parcelas,
          |p.valor_parcela - (p.juros + p.amortizacao)| ≤ 1 / 100) ∧
        (∀ p ∈ (calcular_sac 50 (14 / 10) 5).parcelas,
          |p.valor_parcela - (p.juros + p.amortizacao)| ≤ 1 / 100)) :=
  ⟨by norm_num, by norm_num,
    payment_decomposition_within_cent 50 (14 / 10) 5 (by norm_num) (by norm_num)⟩

/-! ## C2: schedule totals versus sums of the entries -/

/-- C2 counterexample: at principal 50, monthly rate 1.4%, 5 installments, the
`total_pago` reported by `calcular_tabela_price` (52.12) differs from the sum
of the entries' payment fields (52.10) by 0.02 > 0.01, because `total_pago` is
computed from the unrounded PMT while each entry carries the rounded PMT. -/
theorem totals_match_entry_sums_counterexample :
    ¬(|(calcular_tabela_price 50 (14 / 10) 5).total_pago
        - ((calcular_tabela_price 50 (14 / 10) 5).parcelas.map fun p => p.valor_parcela).sum|
      ≤ 1 / 100) := by
  have h5 : (5 : ℤ).toNat = 5 := rfl
  have habs : |(1 : ℚ) / 50| = 1 / 50 := abs_of_pos (by norm_num)
  norm_num [calcular_tabela_price, priceAux, pricePMT, round2, snap, round_eq,
    List.getLast?, h5, habs]

/-- C2 (amended): for schedules of `calcular_tabela_price` and `calcular_sac`
with principal > 0 and count ≥ 1, `total_pago` and `total_juros` match the
sums of the entries' payment and interest fields within `(count + 1) * 0.005`
(not within the flat 0.01 stated by the claim, which fails for counts ≥ 5 —
see `totals_match_entry_sums_counterexample`): each of the `count` entries
contributes a rounding error of at most half a cent, plus half a cent for the
rounding of the total itself. -/
theorem totals_match_entry_sums_amended
    (valor_principal taxa_juros_mensal : ℚ) (numero_parcelas : ℤ)
    (hP : 0 < valor_principal) (hn : 1 ≤ numero_parcelas) :
    |(calcular_tabela_price valor_principal taxa_juros_mensal numero_parcelas).total_pago
        - ((calcular_tabela_price valor_principal taxa_juros_mensal
            numero_parcelas).parcelas.map fun p => p.valor_parcela).sum|
      ≤ ((numero_parcelas.toNat : ℚ) + 1) / 200 ∧
    |(calcular_tabela_price valor_principal taxa_juros_mensal numero_parcelas).total_juros
        - ((calcular_tabela_price valor_principal taxa_juros_mensal
            numero_parcelas).parcelas.map fun p => p.juros).sum|
      ≤ ((numero_parcelas.toNat : ℚ) + 1) / 200 ∧
    |(calcular_sac valor_principal taxa_juros_mensal numero_parcelas).total_pago
        - ((calcular_sac valor_principal taxa_juros_mensal
            numero_parcelas).parcelas.map fun p => p.valor_parcela).sum|
      ≤ ((numero_parcelas.toNat : ℚ) + 1) / 200 ∧
    |(calcular_sac valor_principal taxa_juros_mensal numero_parcelas).total_juros
        - ((calcular_sac valor_principal taxa_juros_mensal
            numero_parcelas).parcelas.map fun p => p.juros).sum|
      ≤ ((numero_parcelas.toNat : ℚ) + 1) / 200 := by
  have h := calcular_tabela_price_eq valor_principal taxa_juros_mensal numero_parcelas hP hn
  set n := numero_parcelas.toNat with hndef
  set i := taxa_juros_mensal / 100 with hidef
  set PMT := pricePMT valor_principal i n with hpmtdef
  have hn0 : (0 : ℚ) ≤ (n : ℚ) := by positivity
  obtain ⟨f, hf⟩ : ∃ f, n = f + 1 := ⟨n - 1, by omega⟩
  obtain ⟨last, hl, hs, hsum⟩ :=
    price_last_sum i PMT n f 1 valor_principal 0 (by omega)
  rw [← hf] at hl hsum
  have hcastf : (f : ℚ) = (n : ℚ) - 1 := by
    rw [hf]; push_cast; ring
  refine ⟨?_, ?_, ?_, ?_⟩
  · -- Price: total_pago versus the sum of the rounded payments
    rw [h]
    have hult : (((priceAux i PMT n n 1 valor_principal 0).1.getLast?.map
        fun p => p.valor_parcela).getD 0) = last.valor_parcela := by
      rw [hl]
      rfl
    show |round2 (PMT * ((n : ℚ) - 1) +
        (((priceAux i PMT n n 1 valor_principal 0).1.getLast?.map
          fun p => p.valor_parcela).getD 0))
      - ((priceAux i PMT n n 1 valor_principal 0).1.map fun p => p.valor_parcela).sum|
      ≤ ((n : ℚ) + 1) / 200
    rw [hult, hsum]
    have h1 := abs_round2_sub_le (PMT * ((n : ℚ) - 1) + last.valor_parcela)
    have h2 := abs_round2_sub_le PMT
    have hre : round2 (PMT * ((n : ℚ) - 1) + last.valor_parcela)
        - ((f : ℚ) * round2 PMT + last.valor_parcela)
        = (round2 (PMT * ((n : ℚ) - 1) + last.valor_parcela)
            - (PMT * ((n : ℚ) - 1) + last.valor_parcela))
          - (f : ℚ) * (round2 PMT - PMT) := by
      rw [hcastf]; ring
    rw [hre]
    have hfabs : |(f : ℚ) * (round2 PMT - PMT)| ≤ (f : ℚ) / 200 := by
      rw [abs_mul, abs_of_nonneg (by positivity : (0 : ℚ) ≤ (f : ℚ))]
      have : (f : ℚ) * |round2 PMT - PMT| ≤ (f : ℚ) * (1 / 200) :=
        mul_le_mul_of_nonneg_left (abs_round2_sub_le PMT) (by positivity)
      linarith
    calc |(round2 (PMT * ((n : ℚ) - 1) + last.valor_parcela)
            - (PMT * ((n : ℚ) - 1) + last.valor_parcela))
          - (f : ℚ) * (round2 PMT - PMT)|
        ≤ |round2 (PMT * ((n : ℚ) - 1) + last.valor_parcela)
            - (PMT * ((n : ℚ) - 1) + last.valor_parcela)|
          + |(f : ℚ) * (round2 PMT - PMT)| := abs_sub _ _
      _ ≤ 1 / 200 + (f : ℚ) / 200 := add_le_add h1 hfabs
      _ ≤ ((n : ℚ) + 1) / 200 := by rw [hf]; push_cast; linarith
  · -- Price: total_juros versus the sum of the rounded interests
    rw [h]
    show |round2 (priceAux i PMT n n 1 valor_principal 0).2
        - ((priceAux i PMT n n 1 valor_principal 0).1.map fun p => p.juros).sum|
      ≤ ((n : ℚ) + 1) / 200
    have h1 := abs_round2_sub_le (priceAux i PMT n n 1 valor_principal 0).2
    have h2 := priceAux_juros_sum i PMT n n 1 valor_principal 0
    rw [sub_zero] at h2
    calc |round2 (priceAux i PMT n n 1 valor_principal 0).2
          - ((priceAux i PMT n n 1 valor_principal 0).1.map fun p => p.juros).sum|
        = |(round2 (priceAux i PMT n n 1 valor_principal 0).2
              - (priceAux i PMT n n 1 valor_principal 0).2)
            - (((priceAux i PMT n n 1 valor_principal 0).1.map fun p => p.juros).sum
              - (priceAux i PMT n n 1 valor_principal 0).2)| := by ring_nf
      _ ≤ |round2 (priceAux i PMT n n 1 valor_principal 0).2
              - (priceAux i PMT n n 1 valor_principal 0).2|
          + |((priceAux i PMT n n 1 valor_principal 0).1.map fun p => p.juros).sum
              - (priceAux i PMT n n 1 valor_principal 0).2| := abs_sub _ _
      _ ≤ 1 / 200 + (n : ℚ) / 200 := add_le_add h1 h2
      _ = ((n : ℚ) + 1) / 200 := by ring
  · -- SAC: total_pago is the rounding of the sum of the rounded payments
    rw [calcular_sac_total_pago valor_principal taxa_juros_mensal numero_parcelas hP hn,
      calcular_sac_parcelas valor_principal taxa_juros_mensal numero_parcelas hP hn]
    have h1 := abs_round2_sub_le
      (((sacAux i (valor_principal / (n : ℚ)) n 1 valor_principal 0).1.map
        fun p => p.valor_parcela).sum)
    calc |round2 (((sacAux i (valor_principal / (n : ℚ)) n 1 valor_principal 0).1.map
            fun p => p.valor_parcela).sum)
          - ((sacAux i (valor_principal / (n : ℚ)) n 1 valor_principal 0).1.map
            fun p => p.valor_parcela).sum|
        ≤ 1 / 200 := h1
      _ ≤ ((n : ℚ) + 1) / 200 := by
          have : (1 : ℚ) ≤ (n : ℚ) + 1 := by linarith
          linarith
  · -- SAC: total_juros versus the sum of the rounded interests
    rw [calcular_sac_total_juros valor_principal taxa_juros_mensal numero_parcelas hP hn,
      calcular_sac_parcelas valor_principal taxa_juros_mensal numero_parcelas hP hn]
    have h1 := abs_round2_sub_le (sacAux i (valor_principal / (n : ℚ)) n 1 valor_principal 0).2
    have h2 := sacAux_juros_sum i (valor_principal / (n : ℚ)) n 1 valor_principal 0
    rw [sub_zero] at h2
    calc |round2 (sacAux i (valor_principal / (n : ℚ)) n 1 valor_principal 0).2
          - ((sacAux i (valor_principal / (n : ℚ)) n 1 valor_principal 0).1.map
            fun p => p.juros).sum|
        = |(round2 (sacAux i (valor_principal / (n : ℚ)) n 1 valor_principal 0).2
              - (sacAux i (valor_principal / (n : ℚ)) n 1 valor_principal 0).2)
            - (((sacAux i (valor_principal / (n : ℚ)) n 1 valor_principal 0).1.map
                fun p => p.juros).sum
              - (sacAux i (valor_principal / (n : ℚ)) n 1 valor_principal 0).2)| := by ring_nf
      _ ≤ |round2 (sacAux i (valor_principal / (n : ℚ)) n 1 valor_principal 0).2
              - (sacAux i (valor_principal / (n : ℚ)) n 1 valor_principal 0).2|
          + |((sacAux i (valor_principal / (n : ℚ)) n 1 valor_principal 0).1.map
                fun p => p.juros).sum
              - (sacAux i (valor_principal / (n : ℚ)) n 1 valor_principal 0).2| := abs_sub _ _
      _ ≤ 1 / 200 + (n : ℚ) / 200 := add_le_add h1 h2
      _ = ((n : ℚ) + 1) / 200 := by ring

/-- Witness for the amended C2 at principal 50, rate 1.4%, 5 installments. -/
theorem totals_match_entry_sums_amended_witness :
    0 < (50 : ℚ) ∧ 1 ≤ (5 : ℤ) ∧
      |(calcular_tabela_price 50 (14 / 10) 5).total_pago
          - ((calcular_tabela_price 50 (14 / 10) 5).parcelas.map
              fun p => p.valor_parcela).sum|
        ≤ (((5 : ℤ).toNat : ℚ) + 1) / 200 :=
  ⟨by norm_num, by norm_num,
    (totals_match_entry_sums_amended 50 (14 / 10) 5 (by norm_num) (by norm_num)).1⟩

/-! ## Unfolding the detection and the rate resolution -/

lemma detectar_eq (P r : ℚ) (np : ℤ) (v tol : ℚ) (hv : v ≠ 0) :
    detectar_metodologia_amortizacao P r np v tol =
      some (if |(calcular_tabela_price P r np).valor_parcela - v| / v ≤ tol ∧
              |(calcular_tabela_price P r np).valor_parcela - v| / v <
                |(calcular_sac P r np).valor_parcela_inicial - v| / v then some "price"
        else if |(calcular_sac P r np).valor_parcela_inicial - v| / v ≤ tol ∧
              |(calcular_sac P r np).valor_parcela_inicial - v| / v <
                |(calcular_tabela_price P r np).valor_parcela - v| / v then some "sac"
        else none) := by
  unfold detectar_metodologia_amortizacao
  rw [if_neg hv]

lemma detectar_zero (P r : ℚ) (np : ℤ) (tol : ℚ) :
    detectar_metodologia_amortizacao P r np 0 tol = none := by
  unfold detectar_metodologia_amortizacao
  rw [if_pos rfl]

lemma resolveTaxa_not_pos (conv : ℚ → ℚ) (lk t : Option ℚ) (tt ix : String)
    (htt : ¬ tt = "posfixada") :
    resolveTaxa conv lk t tt ix = (resultadoBase t, t.getD 0, none) := by
  unfold resolveTaxa
  rw [if_neg htt]

lemma resolveTaxa_pos_none (conv : ℚ → ℚ) (t : Option ℚ) (ix : String) :
    resolveTaxa conv none t "posfixada" ix =
      ({ resultadoBase t with
          aviso_taxa_posfixada := some (msg_aviso_posfixada_falha ix) },
        t.getD 0, none) := by
  unfold resolveTaxa
  rw [if_pos rfl]
  have htb : (if ix.toLower = "selic" then (none : Option ℚ)
      else if ix.toLower = "cdi" then none else none) = none := by
    split_ifs <;> rfl
  rw [htb]
  rfl

lemma resolveTaxa_fst_erro (conv : ℚ → ℚ) (lk t : Option ℚ) (tt ix : String) :
    (resolveTaxa conv lk t tt ix).1.erro = none := by
  unfold resolveTaxa
  dsimp only
  split_ifs <;> rfl

/-- The success path of `recalcular_contrato` when detection does not run
(a methodology was already given, or no installment value is stated). -/
lemma recalcular_resolved_nodetect (conv : ℚ → ℚ) (lk : Option ℚ) (P : ℚ)
    (t : Option ℚ) (np : ℤ) (v : Option ℚ) (tt ix : String) (m : Option String)
    (r1 : Resultado) (te : ℚ) (tb : Option ℚ)
    (hres : resolveTaxa conv lk t tt ix = (r1, te, tb)) (hte : ¬ te ≤ 0)
    (hd : ¬ (truthyS m = false ∧ truthyQ v = true)) :
    recalcular_contrato conv lk P t np v tt ix m =
      { r1 with
          metodologia_detectada := none
          recalculo_price := some (calcular_tabela_price P te np)
          recalculo_sac := some (calcular_sac P te np)
          comparacao := some
            { valor_parcela_contrato := v
              valor_parcela_price := (calcular_tabela_price P te np).valor_parcela
              valor_parcela_sac_inicial := (calcular_sac P te np).valor_parcela_inicial
              diferenca_price := if truthyQ v then
                  some |(calcular_tabela_price P te np).valor_parcela - v.getD 0| else none
              diferenca_sac := if truthyQ v then
                  some |(calcular_sac P te np).valor_parcela_inicial - v.getD 0| else none
              total_pago_price := (calcular_tabela_price P te np).total_pago
              total_pago_sac := (calcular_sac P te np).total_pago
              total_juros_price := (calcular_tabela_price P te np).total_juros
              total_juros_sac := (calcular_sac P te np).total_juros }
          diferenca_taxa := if truthyQ tb ∧ truthyQ t then
              some |converter_taxa_mensal_para_anual_q (t.getD 0) - tb.getD 0| else none
          sucesso := true } := by
  unfold recalcular_contrato
  rw [hres]
  dsimp only
  rw [if_neg hte, if_neg hd]

/-- The success path of `recalcular_contrato` when detection runs (no
methodology given, nonzero stated installment): the detection cannot raise,
and its unwrapped result lands in `metodologia_detectada`. -/
lemma recalcular_resolved_detect (conv : ℚ → ℚ) (lk : Option ℚ) (P : ℚ)
    (t : Option ℚ) (np : ℤ) (v : Option ℚ) (tt ix : String) (m : Option String)
    (r1 : Resultado) (te : ℚ) (tb : Option ℚ)
    (hres : resolveTaxa conv lk t tt ix = (r1, te, tb)) (hte : ¬ te ≤ 0)
    (y : ℚ) (hv : v = some y) (hy : y ≠ 0) (hm : truthyS m = false) :
    recalcular_contrato conv lk P t np v tt ix m =
      { r1 with
          metodologia_detectada :=
            (detectar_metodologia_amortizacao P te np y (1 / 100)).join
          recalculo_price := some (calcular_tabela_price P te np)
          recalculo_sac := some (calcular_sac P te np)
          comparacao := some
            { valor_parcela_contrato := some y
              valor_parcela_price := (calcular_tabela_price P te np).valor_parcela
              valor_parcela_sac_inicial := (calcular_sac P te np).valor_parcela_inicial
              diferenca_price := some |(calcular_tabela_price P te np).valor_parcela - y|
              diferenca_sac := some |(calcular_sac P te np).valor_parcela_inicial - y|
              total_pago_price := (calcular_tabela_price P te np).total_pago
              total_pago_sac := (calcular_sac P te np).total_pago
              total_juros_price := (calcular_tabela_price P te np).total_juros
              total_juros_sac := (calcular_sac P te np).total_juros }
          diferenca_taxa := if truthyQ tb ∧ truthyQ t then
              some |converter_taxa_mensal_para_anual_q (t.getD 0) - tb.getD 0| else none
          sucesso := true } := by
  subst hv
  have htr : truthyQ (some y) = true := by
    simp [truthyQ, hy]
  unfold recalcular_contrato
  rw [hres]
  dsimp only
  rw [if_neg hte, if_pos ⟨hm, htr⟩]
  simp only [Option.getD_some]
  rw [detectar_eq P te np y (1 / 100) hy]
  simp [htr, Option.join]

/-! ## C4: methodology detection cases -/

/-- C4: for every principal, rate, count, nonzero stated installment and
tolerance, `detectar_metodologia_amortizacao` returns `"price"` exactly when
the Price relative difference is within tolerance and strictly below the SAC
one, `"sac"` in the symmetric case, and an undetermined result (`none`) in
every other case. -/
theorem methodology_detection_cases
    (valor_principal taxa_juros_mensal : ℚ) (numero_parcelas : ℤ)
    (valor_parcela_contrato tolerancia : ℚ) (hv : valor_parcela_contrato ≠ 0) :
    (detectar_metodologia_amortizacao valor_principal taxa_juros_mensal numero_parcelas
          valor_parcela_contrato tolerancia = some (some "price")
        ↔ (|(calcular_tabela_price valor_principal taxa_juros_mensal
                numero_parcelas).valor_parcela - valor_parcela_contrato|
              / valor_parcela_contrato ≤ tolerancia ∧
            |(calcular_tabela_price valor_principal taxa_juros_mensal
                numero_parcelas).valor_parcela - valor_parcela_contrato|
                / valor_parcela_contrato
              < |(calcular_sac valor_principal taxa_juros_mensal
                  numero_parcelas).valor_parcela_inicial - valor_parcela_contrato|
                / valor_parcela_contrato)) ∧
    (detectar_metodologia_amortizacao valor_principal taxa_juros_mensal numero_parcelas
          valor_parcela_contrato tolerancia = some (some "sac")
        ↔ (|(calcular_sac valor_principal taxa_juros_mensal
                numero_parcelas).valor_parcela_inicial - valor_parcela_contrato|
              / valor_parcela_contrato ≤ tolerancia ∧
            |(calcular_sac valor_principal taxa_juros_mensal
                numero_parcelas).valor_parcela_inicial - valor_parcela_contrato|
                / valor_parcela_contrato
              < |(calcular_tabela_price valor_principal taxa_juros_mensal
                  numero_parcelas).valor_parcela - valor_parcela_contrato|
                / valor_parcela_contrato)) ∧
    (detectar_metodologia_amortizacao valor_principal taxa_juros_mensal numero_parcelas
          valor_parcela_contrato tolerancia = some none
        ↔ (¬(|(calcular_tabela_price valor_principal taxa_juros_mensal
                numero_parcelas).valor_parcela - valor_parcela_contrato|
              / valor_parcela_contrato ≤ tolerancia ∧
            |(calcular_tabela_price valor_principal taxa_juros_mensal
                numero_parcelas).valor_parcela - valor_parcela_contrato|
                / valor_parcela_contrato
              < |(calcular_sac valor_principal taxa_juros_mensal
                  numero_parcelas).valor_parcela_inicial - valor_parcela_contrato|
                / valor_parcela_contrato) ∧
          ¬(|(calcular_sac valor_principal taxa_juros_mensal
                numero_parcelas).valor_parcela_inicial - valor_parcela_contrato|
              / valor_parcela_contrato ≤ tolerancia ∧
            |(calcular_sac valor_principal taxa_juros_mensal
                numero_parcelas).valor_parcela_inicial - valor_parcela_contrato|
                / valor_parcela_contrato
              < |(calcular_tabela_price valor_principal taxa_juros_mensal
                  numero_parcelas).valor_parcela - valor_parcela_contrato|
                / valor_parcela_contrato))) := by
  rw [detectar_eq _ _ _ _ _ hv]
  set dp := |(calcular_tabela_price valor_principal taxa_juros_mensal
    numero_parcelas).valor_parcela - valor_parcela_contrato| / valor_parcela_contrato
  set ds := |(calcular_sac valor_principal taxa_juros_mensal
    numero_parcelas).valor_parcela_inicial - valor_parcela_contrato| / valor_parcela_contrato
  by_cases h1 : dp ≤ tolerancia ∧ dp < ds
  · rw [if_pos h1]
    refine ⟨⟨fun _ => h1, fun _ => rfl⟩, ?_, ?_⟩
    · constructor
      · intro h
        simp at h
      · intro h
        exact absurd h.2 (not_lt.mpr h1.2.le)
    · constructor
      · intro h
        simp at h
      · intro h
        exact absurd h1 h.1
  · rw [if_neg h1]
    by_cases h2 : ds ≤ tolerancia ∧ ds < dp
    · rw [if_pos h2]
      refine ⟨?_, ⟨fun _ => h2, fun _ => rfl⟩, ?_⟩
      · constructor
        · intro h
          simp at h
        · intro h
          exact absurd h h1
      · constructor
        · intro h
          simp at h
        · intro h
          exact absurd h2 h.2
    · rw [if_neg h2]
      refine ⟨?_, ?_, ⟨fun _ => ⟨h1, h2⟩, fun _ => rfl⟩⟩
      · constructor
        · intro h
          simp at h
        · intro h
          exact absurd h h1
      · constructor
        · intro h
          simp at h
        · intro h
          exact absurd h h2

/-- Witness for C4 at principal 1200, rate 0, 12 installments, stated
installment 100 (an ambiguous case: both differences are 0). -/
theorem methodology_detection_cases_witness :
    (100 : ℚ) ≠ 0 ∧
      (detectar_metodologia_amortizacao 1200 0 12 100 (1 / 100) = some (some "price")
        ↔ (|(calcular_tabela_price 1200 0 12).valor_parcela - 100| / 100 ≤ 1 / 100 ∧
          |(calcular_tabela_price 1200 0 12).valor_parcela - 100| / 100
            < |(calcular_sac 1200 0 12).valor_parcela_inicial - 100| / 100)) :=
  ⟨by norm_num,
    (methodology_detection_cases 1200 0 12 100 (1 / 100) (by norm_num)).1⟩

/-! ## C5: fixed-rate contract with missing or non-positive rate -/

/-- C5: a fixed-rate (`"prefixada"`) recalculation whose contract-stated rate
is absent or ≤ 0 returns a report with `sucesso = false` and the descriptive
error message — `recalcular_contrato` is a total function, so it returns a
report for every input rather than raising. -/
theorem prefixada_missing_rate_fails (conv : ℚ → ℚ) (taxa_bacen_lookup : Option ℚ)
    (valor_principal : ℚ) (taxa_juros_contrato : Option ℚ) (numero_parcelas : ℤ)
    (valor_parcela_contrato : Option ℚ) (indexador : String) (metodologia : Option String)
    (ht : ∀ x, taxa_juros_contrato = some x → x ≤ 0) :
    (recalcular_contrato conv taxa_bacen_lookup valor_principal taxa_juros_contrato
        numero_parcelas valor_parcela_contrato "prefixada" indexador metodologia).sucesso
      = false ∧
    (recalcular_contrato conv taxa_bacen_lookup valor_principal taxa_juros_contrato
        numero_parcelas valor_parcela_contrato "prefixada" indexador metodologia).erro
      = some msg_taxa_indisponivel := by
  have hres := resolveTaxa_not_pos conv taxa_bacen_lookup taxa_juros_contrato "prefixada"
    indexador (by simp)
  have hte : taxa_juros_contrato.getD 0 ≤ 0 := by
    cases taxa_juros_contrato with
    | none => simp
    | some x => simpa using ht x rfl
  unfold recalcular_contrato
  rw [hres]
  dsimp only
  rw [if_pos hte]
  exact ⟨rfl, rfl⟩

/-- Witness for C5 with an absent contract rate. -/
theorem prefixada_missing_rate_fails_witness :
    (∀ x : ℚ, (none : Option ℚ) = some x → x ≤ 0) ∧
      ((recalcular_contrato (fun q => q) none 10000 none 12 (some 900) "prefixada" "selic"
          none).sucesso = false ∧
        (recalcular_contrato (fun q => q) none 10000 none 12 (some 900) "prefixada" "selic"
          none).erro = some msg_taxa_indisponivel) :=
  ⟨(fun x h => nomatch h),
    prefixada_missing_rate_fails (fun q => q) none 10000 none 12 (some 900) "selic" none
      (fun x h => nomatch h)⟩

/-! ## C6: floating-rate fallback to the contract rate -/

lemma msg_aviso_posfixada_falha_ne_empty (ix : String) :
    msg_aviso_posfixada_falha ix ≠ "" := by
  intro h
  simp only [msg_aviso_posfixada_falha] at h
  have hlen := congrArg String.length h
  have h1 : 0 < ("Não foi possível buscar " : String).length := by decide
  have h0 : ("" : String).length = 0 := rfl
  simp only [String.length_append, h0] at hlen
  omega

/-- C6: a floating-rate (`"posfixada"`) recalculation whose reference-rate
lookup returned nothing but whose contract states a rate > 0 succeeds, uses
the contract-stated rate for both recomputed schedules, and attaches the
non-empty fallback warning. -/
theorem posfixada_fallback_uses_contract_rate (conv : ℚ → ℚ) (valor_principal : ℚ)
    (numero_parcelas : ℤ) (valor_parcela_contrato : Option ℚ) (indexador : String)
    (metodologia : Option String) (x : ℚ) (hx : 0 < x) :
    (recalcular_contrato conv none valor_principal (some x) numero_parcelas
        valor_parcela_contrato "posfixada" indexador metodologia).sucesso = true ∧
    (recalcular_contrato conv none valor_principal (some x) numero_parcelas
        valor_parcela_contrato "posfixada" indexador metodologia).aviso_taxa_posfixada
      = some (msg_aviso_posfixada_falha indexador) ∧
    msg_aviso_posfixada_falha indexador ≠ "" ∧
    (recalcular_contrato conv none valor_principal (some x) numero_parcelas
        valor_parcela_contrato "posfixada" indexador metodologia).recalculo_price
      = some (calcular_tabela_price valor_principal x numero_parcelas) ∧
    (recalcular_contrato conv none valor_principal (some x) numero_parcelas
        valor_parcela_contrato "posfixada" indexador metodologia).recalculo_sac
      = some (calcular_sac valor_principal x numero_parcelas) := by
  have hres := resolveTaxa_pos_none conv (some x) indexador
  have hte : ¬ (some x : Option ℚ).getD 0 ≤ 0 := by
    simp only [Option.getD_some]
    exact not_le.mpr hx
  by_cases hd : (truthyS metodologia = false ∧ truthyQ valor_parcela_contrato = true)
  · obtain ⟨y, hveq, hy⟩ : ∃ y, valor_parcela_contrato = some y ∧ y ≠ 0 := by
      rcases valor_parcela_contrato with _ | y
      · exact absurd hd.2 (by simp [truthyQ])
      · exact ⟨y, rfl, by simpa [truthyQ] using hd.2⟩
    rw [recalcular_resolved_detect conv none valor_principal (some x) numero_parcelas
      valor_parcela_contrato "posfixada" indexador metodologia _ _ _ hres hte y hveq hy hd.1]
    exact ⟨rfl, rfl, msg_aviso_posfixada_falha_ne_empty indexador, rfl, rfl⟩
  · rw [recalcular_resolved_nodetect conv none valor_principal (some x) numero_parcelas
      valor_parcela_contrato "posfixada" indexador metodologia _ _ _ hres hte hd]
    exact ⟨rfl, rfl, msg_aviso_posfixada_falha_ne_empty indexador, rfl, rfl⟩

/-- Witness for C6 at contract rate 2%/month. -/
theorem posfixada_fallback_uses_contract_rate_witness :
    0 < (2 : ℚ) ∧
      ((recalcular_contrato (fun q => q) none 10000 (some 2) 12 (some 900) "posfixada"
          "selic" none).sucesso = true ∧
        (recalcular_contrato (fun q => q) none 10000 (some 2) 12 (some 900) "posfixada"
          "selic" none).aviso_taxa_posfixada = some (msg_aviso_posfixada_falha "selic") ∧
        msg_aviso_posfixada_falha "selic" ≠ "" ∧
        (recalcular_contrato (fun q => q) none 10000 (some 2) 12 (some 900) "posfixada"
          "selic" none).recalculo_price = some (calcular_tabela_price 10000 2 12) ∧
        (recalcular_contrato (fun q => q) none 10000 (some 2) 12 (some 900) "posfixada"
          "selic" none).recalculo_sac = some (calcular_sac 10000 2 12)) :=
  ⟨by norm_num,
    posfixada_fallback_uses_contract_rate (fun q => q) 10000 12 (some 900) "selic" none 2
      (by norm_num)⟩

/-! ## C8: degenerate inputs -/

/-- C8: for principal ≤ 0 or installment count ≤ 0, both calculators return
(without raising) the schedule with zero payment fields, zero totals, and an
empty entry list. -/
theorem degenerate_inputs_zero_schedules
    (valor_principal taxa_juros_mensal : ℚ) (numero_parcelas : ℤ)
    (h : valor_principal ≤ 0 ∨ numero_parcelas ≤ 0) :
    calcular_tabela_price valor_principal taxa_juros_mensal numero_parcelas
        = ⟨0, 0, 0, []⟩ ∧
    calcular_sac valor_principal taxa_juros_mensal numero_parcelas = ⟨0, 0, 0, 0, []⟩ := by
  unfold calcular_tabela_price calcular_sac
  rw [if_pos h, if_pos h]
  exact ⟨rfl, rfl⟩

/-- Witness for C8 at principal 0. -/
theorem degenerate_inputs_zero_schedules_witness :
    ((0 : ℚ) ≤ 0 ∨ (12 : ℤ) ≤ 0) ∧
      (calcular_tabela_price 0 2 12 = ⟨0, 0, 0, []⟩ ∧
        calcular_sac 0 2 12 = ⟨0, 0, 0, 0, []⟩) :=
  ⟨Or.inl le_rfl, degenerate_inputs_zero_schedules 0 2 12 (Or.inl le_rfl)⟩

/-! ## C10: the division by zero in detection and its unreachability -/

/-- C10: `detectar_metodologia_amortizacao` divides by the stated installment
without a guard, so a stated installment of 0 raises (embedded as the `none`
result); and this error is unreachable from `recalcular_contrato`, whose
reports never carry the division-error message — their `erro` is either `none`
or the missing-rate message, for every input (detection is invoked only under
the truthiness guard that excludes a zero installment). -/
theorem division_by_zero_raises_but_unreachable :
    (∀ (valor_principal taxa_juros_mensal : ℚ) (numero_parcelas : ℤ) (tolerancia : ℚ),
        detectar_metodologia_amortizacao valor_principal taxa_juros_mensal numero_parcelas 0
          tolerancia = none) ∧
    (∀ (conv : ℚ → ℚ) (lk : Option ℚ) (P : ℚ) (t : Option ℚ) (np : ℤ) (v : Option ℚ)
        (tt ix : String) (m : Option String),
        (recalcular_contrato conv lk P t np v tt ix m).erro = none ∨
          (recalcular_contrato conv lk P t np v tt ix m).erro
            = some msg_taxa_indisponivel) := by
  refine ⟨fun P r np tol => detectar_zero P r np tol, ?_⟩
  intro conv lk P t np v tt ix m
  rcases hres : resolveTaxa conv lk t tt ix with ⟨r1, te, tb⟩
  have her : r1.erro = none := by
    have h := resolveTaxa_fst_erro conv lk t tt ix
    rw [hres] at h
    exact h
  by_cases hte : te ≤ 0
  · right
    unfold recalcular_contrato
    rw [hres]
    dsimp only
    rw [if_pos hte]
  · left
    by_cases hd : (truthyS m = false ∧ truthyQ v = true)
    · obtain ⟨y, hveq, hy⟩ : ∃ y, v = some y ∧ y ≠ 0 := by
        rcases v with _ | y
        · exact absurd hd.2 (by simp [truthyQ])
        · exact ⟨y, rfl, by simpa [truthyQ] using hd.2⟩
      rw [recalcular_resolved_detect conv lk P t np v tt ix m r1 te tb hres hte y hveq hy hd.1]
      exact her
    · rw [recalcular_resolved_nodetect conv lk P t np v tt ix m r1 te tb hres hte hd]
      exact her

/-! ## C7: the validator's R$ 1.00 tolerance boundary -/

/-- Closed form of `validar_contrato` for a successful prefixed-rate
recalculation with a stated installment. -/
lemma validar_eq (conv : ℚ → ℚ) (lk : Option ℚ) (P : ℚ) (np : ℤ) (x vv : ℚ)
    (hx : 0 < x) (hv : vv ≠ 0) :
    validar_contrato conv lk P (some x) np (some vv) =
      { valido := (if |(calcular_tabela_price P x np).valor_parcela - vv| ≠ 0 ∧
            1 < |(calcular_tabela_price P x np).valor_parcela - vv| then
            [msg_divergencia_price vv (calcular_tabela_price P x np).valor_parcela
              |(calcular_tabela_price P x np).valor_parcela - vv|] else []).isEmpty
        irregularidades := if |(calcular_tabela_price P x np).valor_parcela - vv| ≠ 0 ∧
            1 < |(calcular_tabela_price P x np).valor_parcela - vv| then
            [msg_divergencia_price vv (calcular_tabela_price P x np).valor_parcela
              |(calcular_tabela_price P x np).valor_parcela - vv|] else []
        aviso := (if |(calcular_sac P x np).valor_parcela_inicial - vv| ≠ 0 ∧
            1 < |(calcular_sac P x np).valor_parcela_inicial - vv| then
            [msg_divergencia_sac (calcular_sac P x np).valor_parcela_inicial
              |(calcular_sac P x np).valor_parcela_inicial - vv|] else []) ++
          (if truthyS (detectar_metodologia_amortizacao P x np vv (1 / 100)).join then []
            else [msg_metodologia_nao_detectada])
        metodologia :=
          if truthyS (detectar_metodologia_amortizacao P x np vv (1 / 100)).join then
            (detectar_metodologia_amortizacao P x np vv (1 / 100)).join
          else none } := by
  have hres := resolveTaxa_not_pos conv lk (some x) "prefixada" "selic" (by simp)
  have hte : ¬ (some x : Option ℚ).getD 0 ≤ 0 := by
    simp only [Option.getD_some]
    exact not_le.mpr hx
  have hrec := recalcular_resolved_detect conv lk P (some x) np (some vv) "prefixada" "selic"
    none _ _ _ hres hte vv rfl hv rfl
  simp only [Option.getD_some] at hrec
  have htr : truthyQ (some vv) = true := by simp [truthyQ, hv]
  unfold validar_contrato
  rw [hrec]
  dsimp only [Option.map, Option.getD]
  rw [if_neg (by simp : ¬(true = false)), if_pos htr]

/-- C7: for a successful prefixed-rate recalculation with a stated
installment, a stated-vs-Price difference of exactly R$ 1.00 leaves the
contract valid with no irregularity; a difference above R$ 1.00 marks it
invalid with the irregularity finding naming the stated value, the computed
Price value, and the difference; and a SAC difference above R$ 1.00 with the
Price difference within tolerance only adds an advisory, never invalidity. -/
theorem validator_tolerance_boundary (conv : ℚ → ℚ) (lk : Option ℚ) (P : ℚ) (np : ℤ)
    (x vv : ℚ) (hx : 0 < x) (hv : vv ≠ 0) :
    (|(calcular_tabela_price P x np).valor_parcela - vv| = 1 →
        (validar_contrato conv lk P (some x) np (some vv)).valido = true ∧
        (validar_contrato conv lk P (some x) np (some vv)).irregularidades = []) ∧
    (1 < |(calcular_tabela_price P x np).valor_parcela - vv| →
        (validar_contrato conv lk P (some x) np (some vv)).valido = false ∧
        (validar_contrato conv lk P (some x) np (some vv)).irregularidades
          = [msg_divergencia_price vv (calcular_tabela_price P x np).valor_parcela
              |(calcular_tabela_price P x np).valor_parcela - vv|]) ∧
    (|(calcular_tabela_price P x np).valor_parcela - vv| ≤ 1 →
        1 < |(calcular_sac P x np).valor_parcela_inicial - vv| →
        (validar_contrato conv lk P (some x) np (some vv)).valido = true ∧
        msg_divergencia_sac (calcular_sac P x np).valor_parcela_inicial
            |(calcular_sac P x np).valor_parcela_inicial - vv|
          ∈ (validar_contrato conv lk P (some x) np (some vv)).aviso) := by
  rw [validar_eq conv lk P np x vv hx hv]
  set dp := |(calcular_tabela_price P x np).valor_parcela - vv| with hdp
  set ds := |(calcular_sac P x np).valor_parcela_inicial - vv| with hds
  refine ⟨?_, ?_, ?_⟩
  · intro h1
    have hno : ¬(dp ≠ 0 ∧ 1 < dp) := by
      rintro ⟨-, hlt⟩
      rw [h1] at hlt
      exact lt_irrefl 1 hlt
    rw [if_neg hno]
    exact ⟨rfl, rfl⟩
  · intro h1
    have hyes : dp ≠ 0 ∧ 1 < dp := ⟨(lt_trans zero_lt_one h1).ne', h1⟩
    rw [if_pos hyes]
    exact ⟨rfl, rfl⟩
  · intro h1 h2
    have hno : ¬(dp ≠ 0 ∧ 1 < dp) := by
      rintro ⟨-, hlt⟩
      exact absurd hlt (not_lt.mpr h1)
    have hyes : ds ≠ 0 ∧ 1 < ds := ⟨(lt_trans zero_lt_one h2).ne', h2⟩
    rw [if_neg hno, if_pos hyes]
    exact ⟨rfl, List.mem_append_left _ (List.mem_singleton_self _)⟩

/-- Witness for C7 at rate 2%, stated installment 500. -/
theorem validator_tolerance_boundary_witness :
    0 < (2 : ℚ) ∧ (500 : ℚ) ≠ 0 ∧
      (|(calcular_tabela_price 10000 2 12).valor_parcela - 500| = 1 →
        (validar_contrato (fun q => q) none 10000 (some 2) 12 (some 500)).valido = true ∧
        (validar_contrato (fun q => q) none 10000 (some 2) 12
          (some 500)).irregularidades = []) :=
  ⟨by norm_num, by norm_num,
    (validator_tolerance_boundary (fun q => q) none 10000 12 2 500
      (by norm_num) (by norm_num)).1⟩

/-! ## C9: the monthly/annual rate conversions are inverse on positive rates -/

/-- C9: for every x in (0, 50], converting a monthly rate to annual with
`converter_taxa_mensal_para_anual` and back with
`converter_taxa_anual_para_mensal` yields x exactly (in real arithmetic), and
in particular within the claimed 1e-6 relative error. -/
theorem rate_round_trip (x : ℝ) (hx : 0 < x) (hx50 : x ≤ 50) :
    converter_taxa_anual_para_mensal (converter_taxa_mensal_para_anual x) = x ∧
    |converter_taxa_anual_para_mensal (converter_taxa_mensal_para_anual x) - x|
      ≤ x * (1 / 1000000) := by
  have hb : (0 : ℝ) < 1 + x / 100 := by linarith
  have hb1 : (1 : ℝ) < 1 + x / 100 := by linarith
  have hA : converter_taxa_mensal_para_anual x = ((1 + x / 100) ^ (12 : ℝ) - 1) * 100 := by
    unfold converter_taxa_mensal_para_anual
    rw [if_neg (not_le.mpr hx)]
  have hpow : (1 : ℝ) < (1 + x / 100) ^ (12 : ℝ) := by
    rw [Real.one_lt_rpow_iff_of_pos hb]
    exact Or.inl ⟨hb1, by norm_num⟩
  have hA_pos : 0 < converter_taxa_mensal_para_anual x := by
    rw [hA]
    nlinarith [hpow]
  have hmain : converter_taxa_anual_para_mensal (converter_taxa_mensal_para_anual x) = x := by
    unfold converter_taxa_anual_para_mensal
    rw [if_neg (not_le.mpr hA_pos), hA]
    have h1 : 1 + ((1 + x / 100) ^ (12 : ℝ) - 1) * 100 / 100 = (1 + x / 100) ^ (12 : ℝ) := by
      ring
    rw [h1, ← Real.rpow_mul hb.le, show (12 : ℝ) * (1 / 12) = 1 by norm_num, Real.rpow_one]
    ring
  refine ⟨hmain, ?_⟩
  rw [hmain]
  simp only [sub_self, abs_zero]
  positivity

/-- Witness for C9 at x = 12. -/
theorem rate_round_trip_witness :
    0 < (12 : ℝ) ∧ (12 : ℝ) ≤ 50 ∧
      (converter_taxa_anual_para_mensal (converter_taxa_mensal_para_anual 12) = 12 ∧
        |converter_taxa_anual_para_mensal (converter_taxa_mensal_para_anual 12) - 12|
          ≤ 12 * (1 / 1000000)) :=
  ⟨by norm_num, by norm_num, rate_round_trip 12 (by norm_num) (by norm_num)⟩

end FlexAnalise
